import Mathlib

/-!
Shallow embedding of `src/hystrix/hystrix.go` (package hystrix).

The file models the execution gate `Go(name, run, fallback)` and the helper
`tryFallback(fallback, err)`.  A Go `error` value produced by `errors.New`
or `fmt.Errorf` (without `%w`) carries only its message string, so errors
are modelled by their message.  `run` is modelled by its outcome (a normal
return carrying an optional error, or a panic).  The channel operations of
the two goroutines spawned by `Go` are modelled by recording, per goroutine,
the list of values it sends on `errChan` and the number of sends on
`finished`; real-time interleaving between the two goroutines is not
modelled, only the collection of sends each performs once it runs to
completion.  `GetExecutorsForCommand` and `timeoutForCommand` are not part
of `src/`; the registry answer (executors channel, error) is therefore a
parameter of the model, and whether the non-blocking receive on the
executors channel succeeds is the boolean `tokenAvailable`.  Whether the
timeout timer fires before the `finished` signal arrives is the boolean
`finishedFirst` of the timeout watcher.
-/

namespace Hystrix

/-- A Go error value as built by `errors.New` / `fmt.Errorf` with `%v`:
it holds nothing but its message string. -/
abbrev GoErr := String

/-- The single-quote character written by the `fmt.Errorf` format string in
`tryFallback`. -/
def sq : String := String.singleton (Char.ofNat 39)

/-- Message of `errors.New("unable to grab executor")` sent from the
`default:` branch of `Go` when the non-blocking receive on the executors
channel fails. -/
def rejectionError : GoErr := "unable to grab executor"

/-- Message of `errors.New("timeout")` sent by the timeout watcher
goroutine of `Go`. -/
def timeoutError : GoErr := "timeout"

/-- The string built by
`fmt.Errorf("fallback failed with '%v'. run error was '%v'", fallbackErr, err)`
in `tryFallback`. -/
def compositeMsg (fallbackErr err : GoErr) : GoErr :=
  "fallback failed with " ++ sq ++ fallbackErr ++ sq ++ ". run error was " ++ sq ++ err ++ sq

/-- `tryFallback(fallback, err)` from hystrix.go: returns nil when
`fallback` is nil; otherwise calls the fallback with `err`, returning nil
when the fallback returns nil and the formatted composite error when the
fallback returns an error. -/
def tryFallback (fallback : Option (GoErr → Option GoErr)) (err : GoErr) : Option GoErr :=
  match fallback with
  | none => none
  | some fb =>
    match fb err with
    | none => none
    | some fallbackErr => some (compositeMsg fallbackErr err)

/-- Outcome of calling `run()`: a normal return carrying its `error`
result, or a panic raised during execution. -/
inductive RunOutcome where
  | normal : Option GoErr → RunOutcome
  | panics : RunOutcome

/-- Environment of one call to `Go`: the registry answer
`GetExecutorsForCommand(name) = (executors, err)` (the executors channel is
abstracted to present/nil), whether the non-blocking receive on the
executors channel yields an executor token, the outcome of `run()`, and the
optional fallback. -/
structure GoEnv where
  executors : Option Unit
  registryErr : Option GoErr
  tokenAvailable : Bool
  runResult : RunOutcome
  fallback : Option (GoErr → Option GoErr)

/-- What the operation goroutine of `Go` does once it runs to completion:
the values it sends on `errChan` in program order, the number of sends it
performs on `finished`, the number of executor tokens it takes from and
returns to the executors channel, whether `run()` was invoked, the list of
error values the fallback function was invoked with, and whether an
uncaught panic escaped the goroutine. -/
structure OpResult where
  errSends : List GoErr
  finishedSends : Nat
  tokensAcquired : Nat
  tokensReleased : Nat
  opRan : Bool
  fallbackCalls : List GoErr
  panicked : Bool

/-- The list of sends produced by one `errChan <- e` statement guarded by a
nil check. -/
def optToList : Option GoErr → List GoErr
  | none => []
  | some e => [e]

/-- The first anonymous goroutine of `Go`, statement by statement: send the
registry error if non-nil; if the executors channel is non-nil, select on
it — on receiving an executor, defer its release, call `run()` and route a
non-nil run error through the fallback when one is set (sending the
fallback result if non-nil) or send it directly otherwise; on the default
case, route the rejection error through `tryFallback` and send its result
if non-nil; finally send on `finished`.  A panic in `run()` still releases
the token through the deferred function, but nothing after `run()`
executes: no error is sent for it and `finished` is never signalled. -/
def opGoroutine (env : GoEnv) : OpResult :=
  let sends0 := optToList env.registryErr
  match env.executors with
  | none =>
    { errSends := sends0, finishedSends := 1, tokensAcquired := 0, tokensReleased := 0,
      opRan := false, fallbackCalls := [], panicked := false }
  | some _ =>
    if env.tokenAvailable then
      match env.runResult with
      | RunOutcome.panics =>
        { errSends := sends0, finishedSends := 0, tokensAcquired := 1, tokensReleased := 1,
          opRan := true, fallbackCalls := [], panicked := true }
      | RunOutcome.normal none =>
        { errSends := sends0, finishedSends := 1, tokensAcquired := 1, tokensReleased := 1,
          opRan := true, fallbackCalls := [], panicked := false }
      | RunOutcome.normal (some runErr) =>
        match env.fallback with
        | some fb =>
          { errSends := sends0 ++ optToList (tryFallback (some fb) runErr),
            finishedSends := 1, tokensAcquired := 1, tokensReleased := 1,
            opRan := true, fallbackCalls := [runErr], panicked := false }
        | none =>
          { errSends := sends0 ++ [runErr], finishedSends := 1, tokensAcquired := 1,
            tokensReleased := 1, opRan := true, fallbackCalls := [], panicked := false }
    else
      { errSends := sends0 ++ optToList (tryFallback env.fallback rejectionError),
        finishedSends := 1, tokensAcquired := 0, tokensReleased := 0, opRan := false,
        fallbackCalls := (match env.fallback with | some _ => [rejectionError] | none => []),
        panicked := false }

/-- What the timeout watcher goroutine sends: the select either receives
from `finished` first and sends nothing, or the timer fires first and it
sends the timeout error.  It never touches the fallback, recorded by the
(always empty) list of fallback invocations it performs. -/
structure WatcherResult where
  errSends : List GoErr
  fallbackCalls : List GoErr

/-- The second anonymous goroutine of `Go`: `select` between `<-finished`
and `<-time.After(timeoutForCommand(name))`; in the latter case it sends
`errors.New("timeout")` on `errChan`. -/
def timeoutWatcher (finishedFirst : Bool) : WatcherResult :=
  if finishedFirst then { errSends := [], fallbackCalls := [] }
  else { errSends := [timeoutError], fallbackCalls := [] }

/-- Capacity of `errChan := make(chan error, 1)`. -/
def errChanCapacity : Nat := 1

/-- Capacity of `finished := make(chan bool, 1)`. -/
def finishedCapacity : Nat := 1

/-- All values sent on `errChan` during one attempt, by both goroutines
(the list order is not the real-time order; claims about the attempt use
only membership and count). -/
def attemptSends (env : GoEnv) (finishedFirst : Bool) : List GoErr :=
  (opGoroutine env).errSends ++ (timeoutWatcher finishedFirst).errSends

/-- The outcome the caller observes from a single read of `errChan` when
the attempt does not time out: the first value sent, or nil (success) when
nothing is ever sent. -/
def outcomeNoTimeout (env : GoEnv) : Option GoErr :=
  (attemptSends env true).head?

/-- Modelled from the spec: `GetExecutorsForCommand` is not in `src/`.
Per the spec, registry resolution returns `(pool, error)` and a resolution
failure (unknown/misconfigured command) is an error answer; it is modelled
as returning no executors channel together with the error. -/
def resolutionFailure (e : GoErr) : Option Unit × Option GoErr := (none, some e)

/-- Environment of a call whose registry resolution succeeds: non-nil
executors channel, nil resolution error. -/
def mkEnv (tok : Bool) (rr : RunOutcome) (fb : Option (GoErr → Option GoErr)) : GoEnv :=
  { executors := some (), registryErr := none, tokenAvailable := tok,
    runResult := rr, fallback := fb }

/-- Fallback error of the first colliding pair for the composite format. -/
def cexFbErrA : GoErr := "a" ++ sq ++ ". run error was " ++ sq ++ "b"

/-- Original error of the first colliding pair for the composite format. -/
def cexOrigA : GoErr := "c"

/-- Fallback error of the second colliding pair for the composite format. -/
def cexFbErrB : GoErr := "a"

/-- Original error of the second colliding pair for the composite format. -/
def cexOrigB : GoErr := "b" ++ sq ++ ". run error was " ++ sq ++ "c"

/-- C1: in the race scenario where the timeout fires before a failing
`run()` completes, the two goroutines together perform two sends on the
capacity-1 `errChan` (the timeout error and the run error).  With a caller
that reads at most one value, only one send can ever be buffered or
consumed, so the other sender blocks forever: the code does not meet the
claim that no writer blocks after the first value is buffered. -/
theorem go_double_write_exceeds_capacity :
    errChanCapacity = 1 ∧
    (attemptSends (mkEnv true (RunOutcome.normal (some "boom")) none) false).length = 2 ∧
    errChanCapacity < (attemptSends (mkEnv true (RunOutcome.normal (some "boom")) none) false).length :=
  ⟨rfl, rfl, by decide⟩

/-- C2: `tryFallback(nil, e)` returns nil for every `e` (not the original
error), and consequently a pool-exhaustion rejection in `Go` with a nil
fallback sends nothing on `errChan`: the rejection error is silently
dropped instead of being propagated to the caller. -/
theorem tryFallback_nil_drops_error :
    (∀ e : GoErr, tryFallback none e = none) ∧
    attemptSends (mkEnv false (RunOutcome.normal none) none) true = [] ∧
    (opGoroutine (mkEnv false (RunOutcome.normal none) none)).opRan = false :=
  ⟨fun _ => rfl, rfl, rfl⟩

/-- C3: the deferred release balances the acquire on every execution path
(tokens released equal tokens acquired for every environment, the panic
path included, where the one acquired token is released), but a panic in
`run()` is not caught: it escapes the goroutine uncaught, no operation
error is sent for it, and `finished` is never signalled. -/
theorem token_release_balanced_but_panic_uncaught :
    (∀ env : GoEnv, (opGoroutine env).tokensReleased = (opGoroutine env).tokensAcquired) ∧
    (opGoroutine (mkEnv true RunOutcome.panics none)).tokensAcquired = 1 ∧
    (opGoroutine (mkEnv true RunOutcome.panics none)).tokensReleased = 1 ∧
    (opGoroutine (mkEnv true RunOutcome.panics none)).panicked = true ∧
    (opGoroutine (mkEnv true RunOutcome.panics none)).errSends = [] ∧
    (opGoroutine (mkEnv true RunOutcome.panics none)).finishedSends = 0 := by
  refine ⟨?_, rfl, rfl, rfl, rfl, rfl⟩
  intro env
  rcases env with ⟨ex, re, tok, rr, fb⟩
  rcases ex with _ | _
  · rfl
  rcases tok with _ | _
  · rcases fb with _ | f <;> rfl
  · rcases rr with o | _
    · rcases o with _ | e
      · rfl
      · rcases fb with _ | f <;> rfl
    · rfl

/-- C4 counterexample: with a fallback configured that recovers from every
error, an attempt whose timeout fires first still delivers the raw timeout
error, and the fallback is invoked by neither goroutine — so the timeout
error is not surfaced through the configured fallback (which would have
turned it into a nil outcome). -/
theorem timeout_not_through_fallback_cex :
    attemptSends (mkEnv true (RunOutcome.normal none) (some (fun _ => none))) false
      = [timeoutError] ∧
    (opGoroutine (mkEnv true (RunOutcome.normal none) (some (fun _ => none)))).fallbackCalls
      = [] ∧
    (timeoutWatcher false).fallbackCalls = [] ∧
    (mkEnv true (RunOutcome.normal none) (some (fun _ => none))).fallback.isSome = true :=
  ⟨rfl, rfl, rfl, rfl⟩

/-- C4 amended: when the timer fires before the `finished` signal, the
watcher delivers the timeout error directly on `errChan`; when `finished`
arrives first it sends nothing; and the watcher never invokes the fallback,
so the timeout error reaches every attempt's send list unmediated. -/
theorem timeout_delivered_directly (env : GoEnv) :
    (timeoutWatcher false).errSends = [timeoutError] ∧
    (timeoutWatcher true).errSends = [] ∧
    (∀ b : Bool, (timeoutWatcher b).fallbackCalls = []) ∧
    timeoutError ∈ attemptSends env false := by
  refine ⟨rfl, rfl, ?_, ?_⟩
  · intro b; cases b <;> rfl
  · simp [attemptSends, timeoutWatcher]

/-- C5 counterexample: two distinct (fallback error, original error) pairs
for which `tryFallback` produces the very same composite error value — the
composite is only a formatted string, so neither component is recoverable
from it as a structured field. -/
theorem composite_not_structured_cex :
    tryFallback (some (fun _ => some cexFbErrA)) cexOrigA
      = tryFallback (some (fun _ => some cexFbErrB)) cexOrigB ∧
    cexFbErrA ≠ cexFbErrB ∧ cexOrigA ≠ cexOrigB := by
  refine ⟨rfl, ?_, ?_⟩ <;> decide

/-- C5 amended: when the fallback is present and returns an error,
`tryFallback` returns the composite error whose message is the formatted
string embedding both the fallback error and the original error; the two
components live only in that formatted message, not in structured fields. -/
theorem composite_is_formatted_string (fb : GoErr → Option GoErr) (err fbErr : GoErr)
    (h : fb err = some fbErr) :
    tryFallback (some fb) err = some (compositeMsg fbErr err) := by
  simp [tryFallback, h]

/-- C5 witness: the amended theorem evaluated at a concrete fallback and
error pair. -/
theorem composite_is_formatted_string_witness :
    tryFallback (some (fun _ => some "fb boom")) "run boom"
      = some (compositeMsg "fb boom" "run boom") :=
  composite_is_formatted_string (fun _ => some "fb boom") "run boom" "fb boom" rfl

/-- C6: when registry resolution fails (which, per the spec's resolver
contract, pairs the error with no executors channel), the resolution error
is the only value delivered, `run()` is never invoked and the fallback is
never invoked. -/
theorem config_error_immediate (e : GoErr) (tok : Bool) (rr : RunOutcome)
    (fb : Option (GoErr → Option GoErr)) :
    attemptSends { executors := (resolutionFailure e).1, registryErr := (resolutionFailure e).2,
                   tokenAvailable := tok, runResult := rr, fallback := fb } true = [e] ∧
    (opGoroutine { executors := (resolutionFailure e).1, registryErr := (resolutionFailure e).2,
                   tokenAvailable := tok, runResult := rr, fallback := fb }).opRan = false ∧
    (opGoroutine { executors := (resolutionFailure e).1, registryErr := (resolutionFailure e).2,
                   tokenAvailable := tok, runResult := rr, fallback := fb }).fallbackCalls = [] :=
  ⟨rfl, rfl, rfl⟩

/-- C7: when the operation returns an error and no fallback is set, that
error is exactly the attempt's outcome; when a fallback is set it is
invoked with that error, and if it returns nil the attempt sends nothing,
so the outcome is nil (success). -/
theorem operation_error_routing (re : GoErr) (fb : GoErr → Option GoErr)
    (h : fb re = none) :
    outcomeNoTimeout (mkEnv true (RunOutcome.normal (some re)) none) = some re ∧
    attemptSends (mkEnv true (RunOutcome.normal (some re)) none) true = [re] ∧
    (opGoroutine (mkEnv true (RunOutcome.normal (some re)) (some fb))).fallbackCalls = [re] ∧
    attemptSends (mkEnv true (RunOutcome.normal (some re)) (some fb)) true = [] ∧
    outcomeNoTimeout (mkEnv true (RunOutcome.normal (some re)) (some fb)) = none := by
  refine ⟨rfl, rfl, rfl, ?_, ?_⟩ <;>
    simp [outcomeNoTimeout, attemptSends, opGoroutine, tryFallback, mkEnv, optToList,
      timeoutWatcher, h]

/-- C7 witness: the routing theorem at a concrete run error and a concrete
recovering fallback. -/
theorem operation_error_routing_witness :
    outcomeNoTimeout (mkEnv true (RunOutcome.normal (some "boom")) none) = some "boom" ∧
    attemptSends (mkEnv true (RunOutcome.normal (some "boom")) none) true = ["boom"] ∧
    (opGoroutine (mkEnv true (RunOutcome.normal (some "boom"))
      (some (fun _ => none)))).fallbackCalls = ["boom"] ∧
    attemptSends (mkEnv true (RunOutcome.normal (some "boom")) (some (fun _ => none))) true = [] ∧
    outcomeNoTimeout (mkEnv true (RunOutcome.normal (some "boom")) (some (fun _ => none))) = none :=
  operation_error_routing "boom" (fun _ => none) rfl

/-- C8: an operation that returns nil and finishes before the timeout
yields a nil outcome — nothing is ever sent on `errChan` — and the fallback
is never invoked. -/
theorem success_sends_nothing (fb : Option (GoErr → Option GoErr)) :
    attemptSends (mkEnv true (RunOutcome.normal none) fb) true = [] ∧
    outcomeNoTimeout (mkEnv true (RunOutcome.normal none) fb) = none ∧
    (opGoroutine (mkEnv true (RunOutcome.normal none) fb)).fallbackCalls = [] :=
  ⟨rfl, rfl, rfl⟩

/-- C9: if the registry answered with both a non-nil error and a non-nil
executors channel, `Go` sends the resolution error and still proceeds: the
operation runs and a second outcome can be sent; under the precondition
that the error comes with a nil channel, no operation runs. -/
theorem registry_error_with_pool_runs_anyway (e re : GoErr) :
    attemptSends { executors := some (), registryErr := some e, tokenAvailable := true,
                   runResult := RunOutcome.normal (some re), fallback := none } true = [e, re] ∧
    (opGoroutine { executors := some (), registryErr := some e, tokenAvailable := true,
                   runResult := RunOutcome.normal (some re), fallback := none }).opRan = true ∧
    (opGoroutine { executors := none, registryErr := some e, tokenAvailable := true,
                   runResult := RunOutcome.normal (some re), fallback := none }).opRan = false ∧
    attemptSends { executors := none, registryErr := some e, tokenAvailable := true,
                   runResult := RunOutcome.normal (some re), fallback := none } true = [e] :=
  ⟨rfl, rfl, rfl, rfl⟩

/-- C10: on every non-panicking execution path — resolution error,
rejection, operation success, operation failure, fallback applied — the
operation goroutine sends exactly one value on `finished`, which fits the
channel's capacity of 1, so the single sender never blocks there. -/
theorem finished_sent_exactly_once (regErr : Option GoErr) (ex : Option Unit) (tok : Bool)
    (runErr : Option GoErr) (fb : Option (GoErr → Option GoErr)) :
    (opGoroutine { executors := ex, registryErr := regErr, tokenAvailable := tok,
                   runResult := RunOutcome.normal runErr, fallback := fb }).finishedSends = 1 ∧
    (opGoroutine { executors := ex, registryErr := regErr, tokenAvailable := tok,
                   runResult := RunOutcome.normal runErr, fallback := fb }).finishedSends
      ≤ finishedCapacity := by
  rcases ex with _ | _
  · exact ⟨rfl, Nat.le.refl⟩
  rcases tok with _ | _
  · rcases fb with _ | f
    · exact ⟨rfl, Nat.le.refl⟩
    · exact ⟨rfl, Nat.le.refl⟩
  · rcases runErr with _ | e
    · exact ⟨rfl, Nat.le.refl⟩
    · rcases fb with _ | f
      · exact ⟨rfl, Nat.le.refl⟩
      · exact ⟨rfl, Nat.le.refl⟩

end Hystrix
